import Mathlib

/-!
Verification of the stats-aggregation core of `metricsd`
(`src/metricsd/metrics_daemon.cc`), as a shallow embedding in Lean 4.

Conventions:
* C++ `int64_t` counter values are modelled as unbounded `Int`
  (no claim here exercises 64-bit overflow of a persistent counter);
  `uint64_t` sysfs readings are modelled as `Nat` values below `2^64`,
  with `% 2^64` inserted where the C++ arithmetic can wrap.
* C++ `/` on signed integers truncates toward zero, so it is modelled
  by `Int.tdiv`; unsigned `/` is `Nat` division.
* The C++ `int` results of narrowing `uint64_t` conversions are modelled
  by `toInt32` (two's-complement wrap-around, the behaviour of the
  target compilers).
* A division whose C++ evaluation would divide by zero (undefined
  behaviour) is modelled by `div64` returning `none`.
-/

set_option autoImplicit false

namespace Metricsd

/-- Result of narrowing a `uint64_t` (or any unsigned) value to a 32-bit
C++ `int`, using the two's-complement wrap-around behaviour. -/
def toInt32 (x : Nat) : Int :=
  if x % 2 ^ 32 < 2 ^ 31 then (x % 2 ^ 32 : Nat) else (x % 2 ^ 32 : Nat) - 2 ^ 32

/-- Unsigned 64-bit division; `none` models the undefined behaviour of a
C++ division by zero. -/
def div64 (a b : Nat) : Option Nat :=
  if b = 0 then none else some (a / b)

/-- One sample handed to the metrics backend: `uma` models
`MetricsLibraryInterface::SendToUMA(name, sample, min, max, nbuckets)`,
`enum` models `SendEnumToUMA(name, sample, max)`, and `fatal` models the
`LOG_IF(FATAL, nbuckets != max + 1)` abort inside
`MetricsDaemon::SendLinearSample`. -/
inductive Sample where
  | uma (name : String) (sample mn mx nbuckets : Int)
  | enum (name : String) (sample mx : Int)
  | fatal
  deriving DecidableEq, Repr

/-- Name of a sample (`""` for the fatal marker). -/
def Sample.sname : Sample → String
  | .uma n _ _ _ _ => n
  | .enum n _ _ => n
  | .fatal => ""

/-- Model of `MetricsDaemon::SendLinearSample` (metrics_daemon.cc:848):
aborts (`fatal`) unless `nbuckets = max + 1`, otherwise forwards an
enumerated sample. -/
def sendLinearSample (name : String) (sample mx nbuckets : Int) : Sample :=
  if nbuckets ≠ mx + 1 then .fatal else .enum name sample mx

/-- Model of `MetricsDaemon::SendSample` (metrics_daemon.cc:771). -/
def sendSample (name : String) (sample mn mx nbuckets : Int) : Sample :=
  .uma name sample mn mx nbuckets

/-! ## Zram reporting (`MetricsDaemon::ReportZram`, metrics_daemon.cc:565) -/

/-- Model of `MetricsDaemon::ReportZram` after the three sysfs values
`compr_data_size`, `orig_data_size` and `zero_pages` have been read
successfully (each a `uint64_t`, assumed `< 2^64`).  Mirrors
metrics_daemon.cc:565-600; `none` models the undefined division by zero
in the computation of `zero_ratio_percent` when the corrected original
size is zero (the C++ has no guard there). -/
def reportZram (compr_data_size orig_data_size_excl zero_pages : Nat) :
    Option (List Sample) :=
  let page_size : Nat := 4096
  -- |orig_data_size| does not include zero-filled pages (uint64 add can wrap).
  let orig_data_size := (orig_data_size_excl + zero_pages * page_size) % 2 ^ 64
  let compr_data_size_mb := toInt32 (compr_data_size >>> 20)
  -- uint64 subtraction wraps modulo 2^64 when compressed exceeds original.
  let savings_mb := toInt32 (((orig_data_size + 2 ^ 64 - compr_data_size) % 2 ^ 64) >>> 20)
  match div64 (zero_pages * page_size * 100 % 2 ^ 64) orig_data_size with
  | none => none
  | some zr =>
    let zero_ratio_percent := toInt32 zr
    let ratioPart :=
      if 1 ≤ compr_data_size_mb then
        (div64 (orig_data_size * 100 % 2 ^ 64) compr_data_size).map fun r =>
          [sendSample "Platform.ZramCompressionRatioPercent" (toInt32 r) 100 600 50]
      else some []
    match ratioPart with
    | none => none
    | some rp =>
      some ([sendSample "Platform.ZramCompressedSize" compr_data_size_mb 100 4000 50,
             sendSample "Platform.ZramSavings" savings_mb 100 4000 50] ++ rp ++
            [sendSample "Platform.ZramZeroPages" (toInt32 zero_pages) 256 (256 * 1024) 50,
             sendSample "Platform.ZramZeroRatioPercent" zero_ratio_percent 1 50 50])

/-! ## Meminfo parsing
(`MetricsDaemon::FillMeminfo` / `ProcessMeminfo` / `ProcessMemuse`,
metrics_daemon.cc:602-769) -/

/-- Digit-string parser used by `parseCppInt`: `none` on an empty string
or any non-digit character. -/
def digitsToNat? (cs : List Char) : Option Nat :=
  match cs with
  | [] => none
  | _ =>
    cs.foldl
      (fun acc c =>
        match acc with
        | none => none
        | some n => if c.isDigit then some (n * 10 + (c.toNat - '0'.toNat)) else none)
      (some 0)

/-- Model of `base::StringToInt`: an optional leading minus sign followed
by one or more digits, consuming the whole string, with the result
required to fit in a 32-bit `int` (overflow makes the conversion fail). -/
def parseCppInt (s : String) : Option Int :=
  match s.data with
  | '-' :: rest =>
    match digitsToNat? rest with
    | none => none
    | some n => if n ≤ 2 ^ 31 then some (-(n : Int)) else none
  | cs =>
    match digitsToNat? cs with
    | none => none
    | some n => if n < 2 ^ 31 then some (n : Int) else none

/-- Split a character list at every character satisfying `p`, keeping
empty pieces (they are filtered out by the callers, matching
`base::Tokenize`'s keep-non-empty behaviour).  The accumulator holds the
current piece, reversed. -/
def splitChars (p : Char → Bool) : List Char → List Char → List String
  | [], acc => [⟨acc.reverse⟩]
  | c :: cs, acc =>
    if p c then ⟨acc.reverse⟩ :: splitChars p cs [] else splitChars p cs (c :: acc)

/-- Model of `base::Tokenize(s, ": ", ...)`: split at every `':'` or
`' '` character and keep the non-empty pieces. -/
def tokenize (s : String) : List String :=
  (splitChars (fun c => c == ':' || c == ' ') s.data []).filter fun t => t != ""

/-- Model of `Tokenize(meminfo_raw, "\n", &lines)`: the non-empty lines
of the dump. -/
def linesOf (raw : String) : List String :=
  (splitChars (fun c => c == '\n') raw.data []).filter fun l => l != ""

/-- Label of a dump line (`tokens[0]` in `FillMeminfo`).  A line with no
tokens at all makes the C++ index out of bounds (undefined behaviour);
it is modelled as the empty label, which matches no schema field. -/
def tokLabel (l : String) : String :=
  (tokenize l).headD ""

/-- Value token of a dump line (`tokens[1]` in `FillMeminfo`).  A
matched line with no second token is undefined behaviour in the C++;
it is modelled as the empty string, which fails integer conversion. -/
def tokValue (l : String) : String :=
  (tokenize l).getD 1 ""

/-- Modelled from the spec: the operation tag of a meminfo schema field
(`enum MeminfoOp`, declared in metrics_daemon.h which is not part of the
sources).  Spec section 3: the tag selects percent-of-total reporting,
log-scale-kilobytes reporting, or swap-total/swap-free bookkeeping;
a record declared without an explicit tag reports percent-of-total. -/
inductive MeminfoOp where
  | histPercent
  | histLog
  | swapTotal
  | swapFree
  deriving DecidableEq, Repr

/-- Modelled from the spec: one meminfo schema record
(`struct MeminfoRecord`, declared in metrics_daemon.h which is not part
of the sources): logical name, the exact label to match in the dump
(field `match` in the C++, renamed `label` because `match` is a Lean
keyword), and the operation tag. -/
structure MeminfoField where
  name : String
  label : String
  op : MeminfoOp
  deriving DecidableEq, Repr

/-- The `fields_array` schema of `ProcessMeminfo` (metrics_daemon.cc:603),
in declared order; records without an explicit tag report
percent-of-total. -/
def meminfoFields : List MeminfoField :=
  [⟨"MemTotal", "MemTotal", .histPercent⟩,
   ⟨"MemFree", "MemFree", .histPercent⟩,
   ⟨"Buffers", "Buffers", .histPercent⟩,
   ⟨"Cached", "Cached", .histPercent⟩,
   ⟨"Active", "Active", .histPercent⟩,
   ⟨"Inactive", "Inactive", .histPercent⟩,
   ⟨"ActiveAnon", "Active(anon)", .histPercent⟩,
   ⟨"InactiveAnon", "Inactive(anon)", .histPercent⟩,
   ⟨"ActiveFile", "Active(file)", .histPercent⟩,
   ⟨"InactiveFile", "Inactive(file)", .histPercent⟩,
   ⟨"Unevictable", "Unevictable", .histLog⟩,
   ⟨"SwapTotal", "SwapTotal", .swapTotal⟩,
   ⟨"SwapFree", "SwapFree", .swapFree⟩,
   ⟨"AnonPages", "AnonPages", .histPercent⟩,
   ⟨"Mapped", "Mapped", .histPercent⟩,
   ⟨"Shmem", "Shmem", .histLog⟩,
   ⟨"Slab", "Slab", .histLog⟩]

/-- The `fields_array` schema of `ProcessMemuse` (metrics_daemon.cc:746). -/
def memuseFields : List MeminfoField :=
  [⟨"MemTotal", "MemTotal", .histPercent⟩,
   ⟨"ActiveAnon", "Active(anon)", .histPercent⟩,
   ⟨"InactiveAnon", "Inactive(anon)", .histPercent⟩]

/-- Model of `MetricsDaemon::FillMeminfo` (metrics_daemon.cc:673): walk
the dump lines once with a cursor into the schema.  A line whose first
token equals the current field's match label advances the cursor (and
must carry a convertible value, else the whole parse fails); any other
line is skipped.  Once the schema is exhausted scanning stops; if lines
run out first the parse fails.  Returns the field values in schema
order. -/
def fillVals : List String → List MeminfoField → Option (List Int)
  | _, [] => some []
  | [], _ :: _ => none
  | l :: ls, f :: fs =>
    if tokLabel l = f.label then
      match parseCppInt (tokValue l) with
      | none => none
      | some v => (fillVals ls fs).map (v :: ·)
    else
      fillVals ls (f :: fs)

/-- Declarative ordered-schema matching, written from the spec's words
("records must be matched against dump lines in the declared order"):
the schema's match labels appear, in order, as labels of (not
necessarily adjacent) dump lines. -/
inductive SchemaEmbeds : List MeminfoField → List String → Prop
  | nil (ls : List String) : SchemaEmbeds [] ls
  | cons (f : MeminfoField) (fs : List MeminfoField) (l : String) (ls : List String) :
      tokLabel l = f.label → SchemaEmbeds fs ls → SchemaEmbeds (f :: fs) (l :: ls)
  | skip (fs : List MeminfoField) (l : String) (ls : List String) :
      SchemaEmbeds fs ls → SchemaEmbeds fs (l :: ls)

/-- One step of the reporting loop of `ProcessMeminfo`
(metrics_daemon.cc:642-662).  The accumulator carries the emitted
samples and the `swap_total` / `swap_free` locals.  The `swapTotal` case
also overwrites `swap_free`, modelling the missing `break` (the C++
`switch` falls through from the SwapTotal case into the SwapFree case). -/
def meminfoStep (total : Int) (acc : List Sample × Int × Int) (p : MeminfoField × Int) :
    List Sample × Int × Int :=
  match p.1.op with
  | .histPercent =>
    (acc.1 ++ [sendLinearSample ("Platform.Meminfo" ++ p.1.name) ((p.2 * 100).tdiv total) 100 101],
     acc.2.1, acc.2.2)
  | .histLog =>
    (acc.1 ++ [sendSample ("Platform.Meminfo" ++ p.1.name) p.2 1 (4 * 1000 * 1000) 100],
     acc.2.1, acc.2.2)
  | .swapTotal => (acc.1, p.2, p.2)
  | .swapFree => (acc.1, acc.2.1, p.2)

/-- Model of `MetricsDaemon::ProcessMeminfo` (metrics_daemon.cc:602):
parse the dump against `meminfoFields`; fail (emitting nothing) if the
parse fails or total memory is zero; otherwise report every field after
the first according to its tag and, only when `swap_total > 0`, the two
derived swap samples. -/
def processMeminfo (raw : String) : Option (List Sample) :=
  match fillVals (linesOf raw) meminfoFields with
  | none => none
  | some vals =>
    let total := vals.headD 0
    if total = 0 then none
    else
      let r := ((meminfoFields.zip vals).tail).foldl (meminfoStep total) ([], 0, 0)
      let swap_total := r.2.1
      let swap_free := r.2.2
      some (r.1 ++
        (if 0 < swap_total then
          [sendSample "Platform.MeminfoSwapUsed" (swap_total - swap_free) 1 (8 * 1000 * 1000) 100,
           sendLinearSample "Platform.MeminfoSwapUsed.Percent"
             (((swap_total - swap_free) * 100).tdiv swap_total) 100 101]
         else []))

/-- Model of `MetricsDaemon::ProcessMemuse` (metrics_daemon.cc:745):
parse the three-field schema and report anonymous memory as a percent of
total, in a sample named by the current schedule index. -/
def processMemuse (memuse_interval_index : Nat) (raw : String) : Option (List Sample) :=
  match fillVals (linesOf raw) memuseFields with
  | none => none
  | some vals =>
    let total := vals.getD 0 0
    let active_anon := vals.getD 1 0
    let inactive_anon := vals.getD 2 0
    if total = 0 then none
    else
      some [sendLinearSample ("Platform.MemuseAnon" ++ toString memuse_interval_index)
              (((active_anon + inactive_anon) * 100).tdiv total) 100 101]

/-! ## The daemon's persistent-counter state and the stats-update core
(`MetricsDaemon::UpdateStats`, `Run`, `ProcessKernelCrash`,
`ProcessUncleanShutdown`, metrics_daemon.cc:121-140, 414-440, 856-890) -/

/-- Modelled from the spec: the `PersistentInteger` counters owned by the
daemon (class `PersistentInteger` is declared outside these sources;
spec section 4.1 gives `Get` / `Set` / `Add` / `GetAndClear` the plain
integer semantics used here, with persistence invisible to the logic).
One field per counter created in `MetricsDaemon::Init`
(metrics_daemon.cc:187-222), plus the two raw time fields of the daemon
(`last_update_stats_time_`, in microseconds of the monotonic tick clock,
and `latest_cpu_use_microseconds_`). -/
structure DaemonState where
  daily_active_use : Int
  version_cumulative_active_use : Int
  version_cumulative_cpu_use : Int
  kernel_crash_interval : Int
  unclean_shutdown_interval : Int
  user_crash_interval : Int
  any_crashes_daily_count : Int
  any_crashes_weekly_count : Int
  user_crashes_daily_count : Int
  user_crashes_weekly_count : Int
  kernel_crashes_daily_count : Int
  kernel_crashes_weekly_count : Int
  kernel_crashes_version_count : Int
  unclean_shutdowns_daily_count : Int
  unclean_shutdowns_weekly_count : Int
  daily_cycle : Int
  weekly_cycle : Int
  version_cycle : Int
  last_update_stats_time : Int
  latest_cpu_use : Int
  deriving DecidableEq, Repr

/-- Model of `MetricsDaemon::SendKernelCrashesCumulativeCountStats`
(metrics_daemon.cc:776): reports (without clearing) the since-version
kernel-crash count, CPU time and active time, plus the two
crashes-per-year ratios, each ratio only when its denominator is
positive. -/
def sendKernelCrashesCumulativeCountStats (st : DaemonState) : List Sample :=
  let crashes_count := st.kernel_crashes_version_count
  let cpu_use_ms := st.version_cumulative_cpu_use
  let active_use_seconds := st.version_cumulative_active_use
  [sendSample "Platform.KernelCrashesSinceUpdate" crashes_count 1 500 100,
   sendSample "Platform.CumulativeCpuTime" (cpu_use_ms.tdiv 1000) 1 (8 * 1000 * 1000) 100] ++
  (if 0 < cpu_use_ms then
    [sendSample "Logging.KernelCrashesPerCpuYear"
      ((crashes_count * 86400 * 365 * 1000).tdiv cpu_use_ms) 1 (1000 * 1000) 100]
   else []) ++
  (if 0 < active_use_seconds then
    [sendSample "Platform.CumulativeUseTime" active_use_seconds 1 (8 * 1000 * 1000) 100,
     sendSample "Logging.KernelCrashesPerActiveYear"
      ((crashes_count * 86400 * 365).tdiv active_use_seconds) 1 (1000 * 1000) 100]
   else [])

/-- Model of `MetricsDaemon::UpdateStats` (metrics_daemon.cc:856).
Inputs are the current monotonic tick clock and wall clock (both in
microseconds; the wall clock counts from the Unix epoch) and the
cumulative CPU use reading (microseconds).  Adds the elapsed seconds to
the active-use counters and to the user-crash and kernel-crash interval
counters, folds in the CPU-time delta, then runs the daily and weekly
flush-and-reset blocks; returns the new state and the emitted samples. -/
def updateStats (now_ticks_us wall_us cpu_use_us : Int) (st : DaemonState) :
    DaemonState × List Sample :=
  let elapsed_seconds := (now_ticks_us - st.last_update_stats_time).tdiv 1000000
  let st1 : DaemonState := { st with
    daily_active_use := st.daily_active_use + elapsed_seconds
    version_cumulative_active_use := st.version_cumulative_active_use + elapsed_seconds
    user_crash_interval := st.user_crash_interval + elapsed_seconds
    kernel_crash_interval := st.kernel_crash_interval + elapsed_seconds
    version_cumulative_cpu_use :=
      st.version_cumulative_cpu_use + (cpu_use_us - st.latest_cpu_use).tdiv 1000
    latest_cpu_use := cpu_use_us
    last_update_stats_time := now_ticks_us }
  let day := wall_us.tdiv 86400000000
  let week := day.tdiv 7
  let dailyBlock :=
    if st1.daily_cycle ≠ day then
      ({ st1 with
          daily_cycle := day
          daily_active_use := 0
          any_crashes_daily_count := 0
          user_crashes_daily_count := 0
          kernel_crashes_daily_count := 0
          unclean_shutdowns_daily_count := 0 },
       [sendSample "Platform.UseTime.PerDay" st1.daily_active_use 1 86400 50,
        sendSample "Platform.AnyCrashes.PerDay" st1.any_crashes_daily_count 1 100 50,
        sendSample "Platform.UserCrashes.PerDay" st1.user_crashes_daily_count 1 100 50,
        sendSample "Platform.KernelCrashes.PerDay" st1.kernel_crashes_daily_count 1 100 50,
        sendSample "Platform.UncleanShutdown.PerDay" st1.unclean_shutdowns_daily_count 1 100 50]
       ++ sendKernelCrashesCumulativeCountStats st1)
    else (st1, [])
  let st2 := dailyBlock.1
  let weeklyBlock :=
    if st2.weekly_cycle ≠ week then
      ({ st2 with
          weekly_cycle := week
          any_crashes_weekly_count := 0
          user_crashes_weekly_count := 0
          kernel_crashes_weekly_count := 0
          unclean_shutdowns_weekly_count := 0 },
       [sendSample "Platform.AnyCrashes.PerWeek" st2.any_crashes_weekly_count 1 100 50,
        sendSample "Platform.UserCrashes.PerWeek" st2.user_crashes_weekly_count 1 100 50,
        sendSample "Platform.KernelCrashes.PerWeek" st2.kernel_crashes_weekly_count 1 100 50,
        sendSample "Platform.UncleanShutdowns.PerWeek" st2.unclean_shutdowns_weekly_count 1 100 50])
    else (st2, [])
  (weeklyBlock.1, dailyBlock.2 ++ weeklyBlock.2)

/-- Model of the OS-version change check in `MetricsDaemon::Run`
(metrics_daemon.cc:130-137): on a hash mismatch, store the new hash and
clear the three since-version statistics; otherwise do nothing. -/
def checkVersionChange (version : Int) (st : DaemonState) : DaemonState :=
  if st.version_cycle ≠ version then
    { st with
      version_cycle := version
      kernel_crashes_version_count := 0
      version_cumulative_active_use := 0
      version_cumulative_cpu_use := 0 }
  else st

/-- Model of `MetricsDaemon::ProcessKernelCrash` (metrics_daemon.cc:414):
update stats up to now, report and reset the kernel-crash interval, and
bump the any/kernel daily, weekly and since-version crash counters. -/
def processKernelCrash (now_ticks_us wall_us cpu_use_us : Int) (st : DaemonState) :
    DaemonState × List Sample :=
  let r := updateStats now_ticks_us wall_us cpu_use_us st
  let st1 := r.1
  let st2 := { st1 with
    kernel_crash_interval := 0
    any_crashes_daily_count := st1.any_crashes_daily_count + 1
    any_crashes_weekly_count := st1.any_crashes_weekly_count + 1
    kernel_crashes_daily_count := st1.kernel_crashes_daily_count + 1
    kernel_crashes_weekly_count := st1.kernel_crashes_weekly_count + 1
    kernel_crashes_version_count := st1.kernel_crashes_version_count + 1 }
  (st2, r.2 ++ [sendSample "Platform.KernelCrashInterval" st1.kernel_crash_interval 1 (4 * 604800) 50])

/-- Model of `MetricsDaemon::ProcessUncleanShutdown`
(metrics_daemon.cc:429): update stats up to now, report and reset the
unclean-shutdown interval, and bump the unclean/any daily and weekly
counters. -/
def processUncleanShutdown (now_ticks_us wall_us cpu_use_us : Int) (st : DaemonState) :
    DaemonState × List Sample :=
  let r := updateStats now_ticks_us wall_us cpu_use_us st
  let st1 := r.1
  let st2 := { st1 with
    unclean_shutdown_interval := 0
    unclean_shutdowns_daily_count := st1.unclean_shutdowns_daily_count + 1
    unclean_shutdowns_weekly_count := st1.unclean_shutdowns_weekly_count + 1
    any_crashes_daily_count := st1.any_crashes_daily_count + 1
    any_crashes_weekly_count := st1.any_crashes_weekly_count + 1 }
  (st2, r.2 ++ [sendSample "Platform.UncleanShutdownInterval" st1.unclean_shutdown_interval 1 (4 * 604800) 50])

/-- Model of `MetricsDaemon::Run` (metrics_daemon.cc:121) up to the
handoff to the DBus loop, exactly in the source's order: first the
kernel-crash boot-marker pass (if the marker file was present), then the
unclean-shutdown boot-marker pass, and only then the OS-version change
check.  The two boolean inputs are the `CheckSystemCrash` results; the
time and CPU inputs feed the `UpdateStats` calls inside the passes. -/
def runModel (kernel_crash_detected unclean_shutdown_detected : Bool) (version : Int)
    (now_ticks_us wall_us cpu_use_us : Int) (st : DaemonState) : DaemonState × List Sample :=
  let r1 :=
    if kernel_crash_detected then processKernelCrash now_ticks_us wall_us cpu_use_us st
    else (st, [])
  let r2 :=
    if unclean_shutdown_detected then processUncleanShutdown now_ticks_us wall_us cpu_use_us r1.1
    else (r1.1, [])
  (checkVersionChange version r2.1, r1.2 ++ r2.2)

/-- The startup sequence in the order the spec claims it: the OS-version
change check "runs once per daemon start, before any other processing",
so here it precedes both boot-marker passes.  This definition follows
the spec's words and exists only to be compared against `runModel`,
which follows the source. -/
def runVersionCheckFirst (kernel_crash_detected unclean_shutdown_detected : Bool) (version : Int)
    (now_ticks_us wall_us cpu_use_us : Int) (st : DaemonState) : DaemonState × List Sample :=
  let st0 := checkVersionChange version st
  let r1 :=
    if kernel_crash_detected then processKernelCrash now_ticks_us wall_us cpu_use_us st0
    else (st0, [])
  let r2 :=
    if unclean_shutdown_detected then processUncleanShutdown now_ticks_us wall_us cpu_use_us r1.1
    else (r1.1, [])
  (r2.1, r1.2 ++ r2.2)

/-! ## The memory-use-at-age schedule
(`kMemuseIntervals` and `MetricsDaemon::MemuseCallback`,
metrics_daemon.cc:94-100, 705-733) -/

/-- The `kMemuseIntervals` array (metrics_daemon.cc:94), in seconds. -/
def kMemuseIntervals : List Nat := [1 * 60, 4 * 60, 25 * 60, 120 * 60, 600 * 60]

/-- One firing of `MemuseCallback` and all its successors, under
idealised scheduling (every callback fires exactly at its scheduled
delay, so the active-time clock reads exactly `memuse_final_time_` and
the reschedule-after-suspend branch is never taken, and every
`MemuseCallbackWork` call succeeds).  `rem` is the suffix
`kMemuseIntervals[idx..]` still to be consumed, `idx` the current
`memuse_interval_index_`, `now` the active time of this firing.  The
callback first reports (a sample named by `idx`), then—only if an
interval remains—consumes it, post-incrementing the index, and
reschedules.  Returns the (active-time, sample-index) pairs of every
report. -/
def memuseLoopAux : List Nat → Nat → Nat → List (Nat × Nat)
  | [], idx, now => [(now, idx)]
  | iv :: rem, idx, now => (now, idx) :: memuseLoopAux rem (idx + 1) (now + iv)

/-- The full idealised memory-use-at-age trace from daemon start at
active time 0: `OnInit` (metrics_daemon.cc:243) schedules the first
callback after `kMemuseIntervals[0]` seconds with
`memuse_interval_index_ = 0`. -/
def memuseFires : List (Nat × Nat) :=
  memuseLoopAux kMemuseIntervals 0 (kMemuseIntervals.headD 0)

/-! ## CPU-throttle sampling (`MetricsDaemon::SendCpuThrottleMetrics`,
metrics_daemon.cc:483) -/

/-- Model of the reporting tail of `MetricsDaemon::SendCpuThrottleMetrics`
(metrics_daemon.cc:511-518), given an already-initialised non-zero
`max_freq` and a successfully read `scaling_max_freq` value. -/
def sendCpuThrottleMetrics (max_freq scaled_freq : Int) : List Sample :=
  let percent := if max_freq < scaled_freq then 101 else scaled_freq.tdiv (max_freq.tdiv 100)
  [sendLinearSample "Platform.CpuFrequencyThermalScaling" percent 101 102]

/-! ## Concrete states used by the claim theorems -/

/-- A fresh daemon state: every persistent counter at its default 0, both
time baselines at 0. -/
def initialState : DaemonState := ⟨0, 0, 0, 0, 0, 0, 0, 0, 0, 0, 0, 0, 0, 0, 0, 0, 0, 0, 0, 0⟩

/-! ## Helper lemmas about the stats-update core -/

/-- Field-by-field characterisation of the state after `updateStats`. -/
theorem updateStats_state (n w c : Int) (st : DaemonState) :
    (updateStats n w c st).1 =
      { daily_active_use :=
          if st.daily_cycle ≠ w.tdiv 86400000000 then 0
          else st.daily_active_use + (n - st.last_update_stats_time).tdiv 1000000
        version_cumulative_active_use :=
          st.version_cumulative_active_use + (n - st.last_update_stats_time).tdiv 1000000
        version_cumulative_cpu_use :=
          st.version_cumulative_cpu_use + (c - st.latest_cpu_use).tdiv 1000
        kernel_crash_interval :=
          st.kernel_crash_interval + (n - st.last_update_stats_time).tdiv 1000000
        unclean_shutdown_interval := st.unclean_shutdown_interval
        user_crash_interval :=
          st.user_crash_interval + (n - st.last_update_stats_time).tdiv 1000000
        any_crashes_daily_count :=
          if st.daily_cycle ≠ w.tdiv 86400000000 then 0 else st.any_crashes_daily_count
        any_crashes_weekly_count :=
          if st.weekly_cycle ≠ (w.tdiv 86400000000).tdiv 7 then 0 else st.any_crashes_weekly_count
        user_crashes_daily_count :=
          if st.daily_cycle ≠ w.tdiv 86400000000 then 0 else st.user_crashes_daily_count
        user_crashes_weekly_count :=
          if st.weekly_cycle ≠ (w.tdiv 86400000000).tdiv 7 then 0 else st.user_crashes_weekly_count
        kernel_crashes_daily_count :=
          if st.daily_cycle ≠ w.tdiv 86400000000 then 0 else st.kernel_crashes_daily_count
        kernel_crashes_weekly_count :=
          if st.weekly_cycle ≠ (w.tdiv 86400000000).tdiv 7 then 0
          else st.kernel_crashes_weekly_count
        kernel_crashes_version_count := st.kernel_crashes_version_count
        unclean_shutdowns_daily_count :=
          if st.daily_cycle ≠ w.tdiv 86400000000 then 0 else st.unclean_shutdowns_daily_count
        unclean_shutdowns_weekly_count :=
          if st.weekly_cycle ≠ (w.tdiv 86400000000).tdiv 7 then 0
          else st.unclean_shutdowns_weekly_count
        daily_cycle := w.tdiv 86400000000
        weekly_cycle := (w.tdiv 86400000000).tdiv 7
        version_cycle := st.version_cycle
        last_update_stats_time := n
        latest_cpu_use := c } := by
  unfold updateStats
  by_cases hd : st.daily_cycle = w.tdiv 86400000000 <;>
    by_cases hw : st.weekly_cycle = (w.tdiv 86400000000).tdiv 7 <;>
    simp [hd, hw]

/-- An `updateStats` call whose day and week indices both equal the
stored cycle markers emits nothing. -/
theorem updateStats_out_nil (n w c : Int) (st : DaemonState)
    (hd : st.daily_cycle = w.tdiv 86400000000)
    (hw : st.weekly_cycle = (w.tdiv 86400000000).tdiv 7) :
    (updateStats n w c st).2 = [] := by
  simp [updateStats, hd, hw]

/-- The daily-use sample appears in the `updateStats` output exactly when
the day index moved off the stored `daily.cycle` marker. -/
theorem updateStats_fires_daily (n w c : Int) (st : DaemonState) :
    (∃ s ∈ (updateStats n w c st).2, Sample.sname s = "Platform.UseTime.PerDay") ↔
      st.daily_cycle ≠ w.tdiv 86400000000 := by
  by_cases hd : st.daily_cycle = w.tdiv 86400000000 <;>
    by_cases hw : st.weekly_cycle = (w.tdiv 86400000000).tdiv 7 <;>
    simp [updateStats, sendKernelCrashesCumulativeCountStats, sendSample, Sample.sname, hd, hw]

/-- Explicit form of the `updateStats` output: the daily flush block
(use-time sample, four daily frequency samples, cumulative since-version
report) exactly when the day index moved, followed by the weekly flush
block (four weekly frequency samples) exactly when the week index
moved. -/
theorem updateStats_out (n w c : Int) (st : DaemonState) :
    (updateStats n w c st).2 =
      (if st.daily_cycle ≠ w.tdiv 86400000000 then
        [sendSample "Platform.UseTime.PerDay"
           (st.daily_active_use + (n - st.last_update_stats_time).tdiv 1000000) 1 86400 50,
         sendSample "Platform.AnyCrashes.PerDay" st.any_crashes_daily_count 1 100 50,
         sendSample "Platform.UserCrashes.PerDay" st.user_crashes_daily_count 1 100 50,
         sendSample "Platform.KernelCrashes.PerDay" st.kernel_crashes_daily_count 1 100 50,
         sendSample "Platform.UncleanShutdown.PerDay" st.unclean_shutdowns_daily_count 1 100 50,
         sendSample "Platform.KernelCrashesSinceUpdate" st.kernel_crashes_version_count 1 500 100,
         sendSample "Platform.CumulativeCpuTime"
           ((st.version_cumulative_cpu_use + (c - st.latest_cpu_use).tdiv 1000).tdiv 1000)
           1 8000000 100] ++
        (if 0 < st.version_cumulative_cpu_use + (c - st.latest_cpu_use).tdiv 1000 then
          [sendSample "Logging.KernelCrashesPerCpuYear"
             ((st.kernel_crashes_version_count * 86400 * 365 * 1000).tdiv
               (st.version_cumulative_cpu_use + (c - st.latest_cpu_use).tdiv 1000))
             1 1000000 100]
         else []) ++
        (if 0 < st.version_cumulative_active_use + (n - st.last_update_stats_time).tdiv 1000000 then
          [sendSample "Platform.CumulativeUseTime"
             (st.version_cumulative_active_use + (n - st.last_update_stats_time).tdiv 1000000)
             1 8000000 100,
           sendSample "Logging.KernelCrashesPerActiveYear"
             ((st.kernel_crashes_version_count * 86400 * 365).tdiv
               (st.version_cumulative_active_use + (n - st.last_update_stats_time).tdiv 1000000))
             1 1000000 100]
         else [])
       else []) ++
      (if st.weekly_cycle ≠ (w.tdiv 86400000000).tdiv 7 then
        [sendSample "Platform.AnyCrashes.PerWeek" st.any_crashes_weekly_count 1 100 50,
         sendSample "Platform.UserCrashes.PerWeek" st.user_crashes_weekly_count 1 100 50,
         sendSample "Platform.KernelCrashes.PerWeek" st.kernel_crashes_weekly_count 1 100 50,
         sendSample "Platform.UncleanShutdowns.PerWeek" st.unclean_shutdowns_weekly_count 1 100 50]
       else []) := by
  unfold updateStats sendKernelCrashesCumulativeCountStats
  by_cases hd : st.daily_cycle = w.tdiv 86400000000 <;>
    by_cases hw : st.weekly_cycle = (w.tdiv 86400000000).tdiv 7 <;>
    simp [hd, hw]

/-- The weekly any-crash sample appears in the `updateStats` output
exactly when the week index moved off the stored `weekly.cycle`
marker. -/
theorem updateStats_fires_weekly (n w c : Int) (st : DaemonState) :
    (∃ s ∈ (updateStats n w c st).2, Sample.sname s = "Platform.AnyCrashes.PerWeek") ↔
      st.weekly_cycle ≠ (w.tdiv 86400000000).tdiv 7 := by
  rw [updateStats_out]
  by_cases hw : st.weekly_cycle = (w.tdiv 86400000000).tdiv 7
  · simp only [hw, ne_eq, not_true_eq_false, if_false, List.append_nil, iff_false, not_exists,
      not_and]
    intro s hs
    split at hs
    · rcases List.mem_append.mp hs with hs | hs
      · rcases List.mem_append.mp hs with hs | hs
        · fin_cases hs <;> simp [sendSample, Sample.sname]
        · split at hs <;> fin_cases hs <;> simp [sendSample, Sample.sname]
      · split at hs <;> fin_cases hs <;> simp [sendSample, Sample.sname]
    · simp at hs
  · refine iff_of_true
      ⟨sendSample "Platform.AnyCrashes.PerWeek" st.any_crashes_weekly_count 1 100 50, ?_, rfl⟩ hw
    exact List.mem_append_right _ (by simp [hw])

/-! ## Helper lemmas about the meminfo parser -/

/-- Inserting a line whose label matches no schema field anywhere in the
dump does not change the parse: the cursor walk skips unknown lines. -/
theorem fillVals_skip_unknown (pre : List String) (l : String) (post : List String) :
    ∀ fs : List MeminfoField, tokLabel l ∉ fs.map MeminfoField.label →
      fillVals (pre ++ l :: post) fs = fillVals (pre ++ post) fs := by
  induction pre with
  | nil =>
    intro fs hl
    cases fs with
    | nil => simp [fillVals]
    | cons f fs' =>
      have hne : ¬tokLabel l = f.label := fun h => hl (by simp [h])
      simp only [List.nil_append, fillVals, if_neg hne]
  | cons p pre' ih =>
    intro fs hl
    cases fs with
    | nil => simp [fillVals]
    | cons f fs' =>
      simp only [List.cons_append, fillVals]
      by_cases hp : tokLabel p = f.label
      · have h2 : tokLabel l ∉ fs'.map MeminfoField.label := fun hm =>
          hl (List.mem_cons_of_mem _ hm)
        rcases hv : parseCppInt (tokValue p) with _ | val <;>
          simp [hp, hv, ih fs' h2]
      · simp only [if_neg hp]
        exact ih (f :: fs') hl

/-- A successful parse certifies that the schema labels occur, in the
declared order, among the dump lines (the declarative ordered-matching
property of the spec). -/
theorem fillVals_embeds : ∀ (ls : List String) (fs : List MeminfoField) (v : List Int),
    fillVals ls fs = some v → SchemaEmbeds fs ls := by
  intro ls
  induction ls with
  | nil =>
    intro fs v h
    cases fs with
    | nil => exact SchemaEmbeds.nil []
    | cons f fs' => simp [fillVals] at h
  | cons l ls' ih =>
    intro fs v h
    cases fs with
    | nil => exact SchemaEmbeds.nil _
    | cons f fs' =>
      simp only [fillVals] at h
      by_cases hp : tokLabel l = f.label
      · rw [if_pos hp] at h
        rcases hv : parseCppInt (tokValue l) with _ | val <;> rw [hv] at h
        · simp at h
        · obtain ⟨v', hv', -⟩ := Option.map_eq_some'.mp h
          exact SchemaEmbeds.cons f fs' l ls' hp (ih fs' v' hv')
      · rw [if_neg hp] at h
        exact SchemaEmbeds.skip _ l ls' (ih (f :: fs') v h)

/-- A parse that matched fewer values than there are schema fields never
happens: success returns exactly one value per field. -/
theorem fillVals_length : ∀ (ls : List String) (fs : List MeminfoField) (v : List Int),
    fillVals ls fs = some v → v.length = fs.length := by
  intro ls
  induction ls with
  | nil =>
    intro fs v h
    cases fs with
    | nil => simp only [fillVals, Option.some.injEq] at h; simp [← h]
    | cons f fs' => simp [fillVals] at h
  | cons l ls' ih =>
    intro fs v h
    cases fs with
    | nil => simp only [fillVals, Option.some.injEq] at h; simp [← h]
    | cons f fs' =>
      simp only [fillVals] at h
      by_cases hp : tokLabel l = f.label
      · rw [if_pos hp] at h
        rcases hv : parseCppInt (tokValue l) with _ | val <;> rw [hv] at h
        · simp at h
        · obtain ⟨v', hv', hvv⟩ := Option.map_eq_some'.mp h
          simp [← hvv, ih fs' v' hv']
      · rw [if_neg hp] at h
        exact ih (f :: fs') v h

/-! ## Concrete meminfo dumps used by the claim theorems -/

/-- A well-formed meminfo dump containing every schema field in order
(with the swap totals of the spec's worked example), plus the usual
trailing units token on every line. -/
def exampleDump : String :=
  "MemTotal: 2000000 kB\nMemFree: 500000 kB\nBuffers: 60000 kB\nCached: 120000 kB\n" ++
  "Active: 400000 kB\nInactive: 300000 kB\nActive(anon): 150000 kB\nInactive(anon): 100000 kB\n" ++
  "Active(file): 250000 kB\nInactive(file): 200000 kB\nUnevictable: 1000 kB\n" ++
  "SwapTotal: 100000 kB\nSwapFree: 40000 kB\nAnonPages: 180000 kB\nMapped: 50000 kB\n" ++
  "Shmem: 20000 kB\nSlab: 30000 kB\n"

/-- The same dump with the `SwapFree` line moved in front of `SwapTotal`:
every schema label is present, but two of them out of the declared
order. -/
def outOfOrderDump : String :=
  "MemTotal: 2000000 kB\nMemFree: 500000 kB\nBuffers: 60000 kB\nCached: 120000 kB\n" ++
  "Active: 400000 kB\nInactive: 300000 kB\nActive(anon): 150000 kB\nInactive(anon): 100000 kB\n" ++
  "Active(file): 250000 kB\nInactive(file): 200000 kB\nUnevictable: 1000 kB\n" ++
  "SwapFree: 40000 kB\nSwapTotal: 100000 kB\nAnonPages: 180000 kB\nMapped: 50000 kB\n" ++
  "Shmem: 20000 kB\nSlab: 30000 kB\n"

/-! ## Claim theorems -/

/-- C1 (code bug evidence): starting from a fresh state, an `UpdateStats`
call 300 monotonic seconds after the baseline (same day and week, no
CPU delta) adds the 300 elapsed seconds to daily active use, cumulative
active use and the user-crash and kernel-crash interval counters, but
leaves the unclean-shutdown interval counter at 0 — refuting the claim
that the elapsed seconds are added to all three crash-interval
counters. -/
theorem c1_unclean_shutdown_interval_not_advanced :
    (updateStats (300 * 1000000) 0 0 initialState).1.daily_active_use = 300 ∧
    (updateStats (300 * 1000000) 0 0 initialState).1.version_cumulative_active_use = 300 ∧
    (updateStats (300 * 1000000) 0 0 initialState).1.user_crash_interval = 300 ∧
    (updateStats (300 * 1000000) 0 0 initialState).1.kernel_crash_interval = 300 ∧
    (updateStats (300 * 1000000) 0 0 initialState).1.unclean_shutdown_interval = 0 := by
  decide

/-- C4 (code bug evidence): under idealised scheduling the
memory-use-at-age activity fires six times, at active-time offsets
60 s, 2 min, 6 min, 31 min, 2 h 31 min and 12 h 31 min, emitting sample
indices 0 through 5 — not the claimed five samples at the 1-minute,
5-minute, 30-minute, 2.5-hour and 12.5-hour marks (the handler
schedules `kMemuseIntervals[index]` *after* bumping past sample `index`,
and the work routine runs once more after the last interval). -/
theorem c4_memuse_schedule_trace :
    memuseFires = [(60, 0), (120, 1), (360, 2), (1860, 3), (9060, 4), (45060, 5)] ∧
    memuseFires.length = 6 ∧
    memuseFires.map Prod.fst ≠ [60, 300, 1800, 9000, 45000] := by
  decide

/-- C3 (counterexample): with a kernel-crash marker present and a changed
OS version, the coded startup order (crash passes, then version check)
leaves the since-version kernel-crash counter at 0 — the version check
wipes the increment the marker pass just made — whereas the claimed
order (version check before any other processing) would leave it at 1.
So the version check does not run before the boot-marker accounting. -/
theorem c3_counterexample :
    (runModel true false 1 0 0 0 initialState).1.kernel_crashes_version_count = 0 ∧
    (runVersionCheckFirst true false 1 0 0 0 initialState).1.kernel_crashes_version_count = 1 := by
  decide

/-- C2: in every `UpdateStats` call, the daily flush block fires exactly
when the wall-clock day index differs from the stored `daily.cycle`
marker, which afterwards always equals the new day index; the weekly
flush block fires exactly when `week = day / 7` differs from
`weekly.cycle`, which afterwards always equals the new week index; any
further call within the same day (hence same week) emits nothing; and
the two checks are independent — in the concrete call crossing from day
0 to day 7 both blocks fire together. -/
theorem c2_daily_weekly_flush_on_boundary (n w c : Int) (st : DaemonState) :
    ((∃ s ∈ (updateStats n w c st).2, Sample.sname s = "Platform.UseTime.PerDay") ↔
       st.daily_cycle ≠ w.tdiv 86400000000) ∧
    (updateStats n w c st).1.daily_cycle = w.tdiv 86400000000 ∧
    ((∃ s ∈ (updateStats n w c st).2, Sample.sname s = "Platform.AnyCrashes.PerWeek") ↔
       st.weekly_cycle ≠ (w.tdiv 86400000000).tdiv 7) ∧
    (updateStats n w c st).1.weekly_cycle = (w.tdiv 86400000000).tdiv 7 ∧
    (∀ n2 w2 c2 : Int, w2.tdiv 86400000000 = w.tdiv 86400000000 →
       (updateStats n2 w2 c2 (updateStats n w c st).1).2 = []) ∧
    (updateStats 0 (7 * 86400000000) 0 initialState).2.map Sample.sname =
      ["Platform.UseTime.PerDay", "Platform.AnyCrashes.PerDay", "Platform.UserCrashes.PerDay",
       "Platform.KernelCrashes.PerDay", "Platform.UncleanShutdown.PerDay",
       "Platform.KernelCrashesSinceUpdate", "Platform.CumulativeCpuTime",
       "Platform.AnyCrashes.PerWeek", "Platform.UserCrashes.PerWeek",
       "Platform.KernelCrashes.PerWeek", "Platform.UncleanShutdowns.PerWeek"] := by
  refine ⟨updateStats_fires_daily n w c st, ?_, updateStats_fires_weekly n w c st, ?_, ?_, ?_⟩
  · rw [updateStats_state]
  · rw [updateStats_state]
  · intro n2 w2 c2 hw2
    refine updateStats_out_nil n2 w2 c2 _ ?_ ?_
    · rw [updateStats_state, hw2]
    · rw [updateStats_state, hw2]
  · decide

/-- C2 witness: the repeated-call clause of the boundary theorem applied
at concrete inputs — a second call later the same day emits nothing. -/
theorem c2_daily_weekly_flush_on_boundary_witness :
    (updateStats (600 * 1000000) 0 0 (updateStats (300 * 1000000) 0 0 initialState).1).2 = [] :=
  (c2_daily_weekly_flush_on_boundary (300 * 1000000) 0 0 initialState).2.2.2.2.1
    (600 * 1000000) 0 0 rfl

/-- C3 (amended): at daemon start the boot-marker passes run first and
the version check runs after them; with a kernel-crash marker present
and a changed version hash, the final state shows the marker pass did
run (the daily kernel-crash count grew by one, given the call stays
inside the stored day so the daily flush does not reset it) and the
version check then wiped its since-version increment (the counter ends
at 0 and the new hash is stored). -/
theorem c3_version_check_after_marker_passes (st : DaemonState) (version n w c : Int) (u : Bool)
    (hv : st.version_cycle ≠ version)
    (hd : st.daily_cycle = w.tdiv 86400000000) :
    (runModel true u version n w c st).1.kernel_crashes_version_count = 0 ∧
    (runModel true u version n w c st).1.version_cycle = version ∧
    (runModel true u version n w c st).1.kernel_crashes_daily_count =
      st.kernel_crashes_daily_count + 1 := by
  cases u <;>
    simp [runModel, processKernelCrash, processUncleanShutdown, checkVersionChange,
      updateStats_state, hv, hd]

/-- C3 witness: the amended startup-order theorem applied to the fresh
state with version hash 1. -/
theorem c3_version_check_after_marker_passes_witness :
    (runModel true false 1 0 0 0 initialState).1.version_cycle = 1 ∧
    (runModel true false 1 0 0 0 initialState).1.kernel_crashes_daily_count = 1 :=
  ⟨(c3_version_check_after_marker_passes initialState 1 0 0 0 false (by decide) (by decide)).2.1,
   (c3_version_check_after_marker_passes initialState 1 0 0 0 false (by decide) (by decide)).2.2⟩

/-- C7: the version-change check leaves every counter other than the four
version-scoped ones unchanged; it is the identity when the hash matches
the stored `version.cycle`; on a mismatch it stores the hash and clears
the three since-version statistics; and running it twice with the same
hash equals running it once. -/
theorem c7_version_check_exact_reset (version : Int) (st : DaemonState) :
    ((checkVersionChange version st).daily_active_use = st.daily_active_use ∧
     (checkVersionChange version st).kernel_crash_interval = st.kernel_crash_interval ∧
     (checkVersionChange version st).unclean_shutdown_interval = st.unclean_shutdown_interval ∧
     (checkVersionChange version st).user_crash_interval = st.user_crash_interval ∧
     (checkVersionChange version st).any_crashes_daily_count = st.any_crashes_daily_count ∧
     (checkVersionChange version st).any_crashes_weekly_count = st.any_crashes_weekly_count ∧
     (checkVersionChange version st).user_crashes_daily_count = st.user_crashes_daily_count ∧
     (checkVersionChange version st).user_crashes_weekly_count = st.user_crashes_weekly_count ∧
     (checkVersionChange version st).kernel_crashes_daily_count = st.kernel_crashes_daily_count ∧
     (checkVersionChange version st).kernel_crashes_weekly_count = st.kernel_crashes_weekly_count ∧
     (checkVersionChange version st).unclean_shutdowns_daily_count = st.unclean_shutdowns_daily_count ∧
     (checkVersionChange version st).unclean_shutdowns_weekly_count = st.unclean_shutdowns_weekly_count ∧
     (checkVersionChange version st).daily_cycle = st.daily_cycle ∧
     (checkVersionChange version st).weekly_cycle = st.weekly_cycle ∧
     (checkVersionChange version st).last_update_stats_time = st.last_update_stats_time ∧
     (checkVersionChange version st).latest_cpu_use = st.latest_cpu_use) ∧
    (st.version_cycle = version → checkVersionChange version st = st) ∧
    (st.version_cycle ≠ version →
      (checkVersionChange version st).version_cycle = version ∧
      (checkVersionChange version st).kernel_crashes_version_count = 0 ∧
      (checkVersionChange version st).version_cumulative_active_use = 0 ∧
      (checkVersionChange version st).version_cumulative_cpu_use = 0) ∧
    checkVersionChange version (checkVersionChange version st) = checkVersionChange version st := by
  unfold checkVersionChange
  by_cases h : st.version_cycle = version <;> simp [h]

/-- C7 witness: the version-check theorem applied at hash 1 to the fresh
state (whose stored hash is 0). -/
theorem c7_version_check_exact_reset_witness :
    (checkVersionChange 1 initialState).version_cycle = 1 ∧
    (checkVersionChange 1 initialState).kernel_crashes_version_count = 0 :=
  ⟨((c7_version_check_exact_reset 1 initialState).2.2.1 (by decide)).1,
   ((c7_version_check_exact_reset 1 initialState).2.2.1 (by decide)).2.1⟩

/-- C5: the meminfo parser is a single cursor walk over the dump —
inserting a line whose label matches no schema field anywhere leaves the
parse unchanged (unknown/extra lines are skipped); a successful parse
certifies that all schema labels were matched in the declared order, so
a dump missing a field, or presenting it out of order, fails; a failed
parse makes `ProcessMeminfo` return failure with no samples at all; and
concretely, a dump containing every label but with `SwapFree` placed
before `SwapTotal` parses to nothing. -/
theorem c5_meminfo_cursor_parse :
    (∀ (pre : List String) (l : String) (post : List String),
        tokLabel l ∉ meminfoFields.map MeminfoField.label →
        fillVals (pre ++ l :: post) meminfoFields = fillVals (pre ++ post) meminfoFields) ∧
    (∀ (ls : List String) (v : List Int),
        fillVals ls meminfoFields = some v → SchemaEmbeds meminfoFields ls) ∧
    (∀ raw : String, fillVals (linesOf raw) meminfoFields = none → processMeminfo raw = none) ∧
    processMeminfo outOfOrderDump = none := by
  refine ⟨fun pre l post h => fillVals_skip_unknown pre l post meminfoFields h,
    fun ls v h => fillVals_embeds ls meminfoFields v h, fun raw h => ?_, by decide⟩
  simp [processMeminfo, h]

/-- C5 witness: the failure-propagation clause applied to the empty dump
(no schema field can match, so the parse fails and the caller emits
nothing). -/
theorem c5_meminfo_cursor_parse_witness : processMeminfo "" = none :=
  c5_meminfo_cursor_parse.2.2.1 "" (by decide)

/-- A list of 17 values is a 17-element literal. -/
theorem exists_of_length_seventeen (v : List Int) (h : v.length = 17) :
    ∃ a0 a1 a2 a3 a4 a5 a6 a7 a8 a9 a10 a11 a12 a13 a14 a15 a16 : Int,
      v = [a0, a1, a2, a3, a4, a5, a6, a7, a8, a9, a10, a11, a12, a13, a14, a15, a16] := by
  rcases v with _ | ⟨a0, _ | ⟨a1, _ | ⟨a2, _ | ⟨a3, _ | ⟨a4, _ | ⟨a5, _ | ⟨a6, _ | ⟨a7, _ |
    ⟨a8, _ | ⟨a9, _ | ⟨a10, _ | ⟨a11, _ | ⟨a12, _ | ⟨a13, _ | ⟨a14, _ | ⟨a15, _ |
    ⟨a16, rest⟩⟩⟩⟩⟩⟩⟩⟩⟩⟩⟩⟩⟩⟩⟩⟩⟩ <;> simp_all

/-- Fully computed form of `processMeminfo` on a dump that parses to the
17 schema values `a0 .. a16` with non-zero total memory: one sample per
reporting-tagged field (nothing for the swap bookkeeping fields), then
the two derived swap samples exactly when the parsed `SwapTotal` value
`a11` is positive. -/
theorem processMeminfo_explicit (raw : String)
    (a0 a1 a2 a3 a4 a5 a6 a7 a8 a9 a10 a11 a12 a13 a14 a15 a16 : Int)
    (hfill : fillVals (linesOf raw) meminfoFields =
      some [a0, a1, a2, a3, a4, a5, a6, a7, a8, a9, a10, a11, a12, a13, a14, a15, a16])
    (h0 : ¬a0 = 0) :
    processMeminfo raw = some
      ([Sample.enum "Platform.MeminfoMemFree" ((a1 * 100).tdiv a0) 100,
        Sample.enum "Platform.MeminfoBuffers" ((a2 * 100).tdiv a0) 100,
        Sample.enum "Platform.MeminfoCached" ((a3 * 100).tdiv a0) 100,
        Sample.enum "Platform.MeminfoActive" ((a4 * 100).tdiv a0) 100,
        Sample.enum "Platform.MeminfoInactive" ((a5 * 100).tdiv a0) 100,
        Sample.enum "Platform.MeminfoActiveAnon" ((a6 * 100).tdiv a0) 100,
        Sample.enum "Platform.MeminfoInactiveAnon" ((a7 * 100).tdiv a0) 100,
        Sample.enum "Platform.MeminfoActiveFile" ((a8 * 100).tdiv a0) 100,
        Sample.enum "Platform.MeminfoInactiveFile" ((a9 * 100).tdiv a0) 100,
        Sample.uma "Platform.MeminfoUnevictable" a10 1 4000000 100,
        Sample.enum "Platform.MeminfoAnonPages" ((a13 * 100).tdiv a0) 100,
        Sample.enum "Platform.MeminfoMapped" ((a14 * 100).tdiv a0) 100,
        Sample.uma "Platform.MeminfoShmem" a15 1 4000000 100,
        Sample.uma "Platform.MeminfoSlab" a16 1 4000000 100] ++
       (if 0 < a11 then
         [Sample.uma "Platform.MeminfoSwapUsed" (a11 - a12) 1 8000000 100,
          Sample.enum "Platform.MeminfoSwapUsed.Percent" (((a11 - a12) * 100).tdiv a11) 100]
        else [])) := by
  unfold processMeminfo
  rw [hfill]
  simp [meminfoFields, meminfoStep, sendSample, sendLinearSample, h0]

/-- C6: after every successful meminfo parse, no sample named after the
SwapTotal or SwapFree field is ever emitted; the two derived swap
samples — swap-used = total − free on the 1..8,000,000 histogram with
100 buckets and swap-used-percent = used×100/total on the linear 0..100
scale — are present exactly when the parsed swap total is positive; and
on the worked example (swap total 100000, swap free 40000) the emitted
values are 60000 and 60. -/
theorem c6_swap_derived_samples (raw : String) (out : List Sample)
    (h : processMeminfo raw = some out) :
    (∀ s ∈ out, Sample.sname s ≠ "Platform.MeminfoSwapTotal" ∧
       Sample.sname s ≠ "Platform.MeminfoSwapFree") ∧
    (∃ swap_total swap_free : Int,
       (fillVals (linesOf raw) meminfoFields).map (fun v => v.getD 11 0) = some swap_total ∧
       (fillVals (linesOf raw) meminfoFields).map (fun v => v.getD 12 0) = some swap_free ∧
       (0 < swap_total →
          Sample.uma "Platform.MeminfoSwapUsed" (swap_total - swap_free) 1 8000000 100 ∈ out ∧
          Sample.enum "Platform.MeminfoSwapUsed.Percent"
            (((swap_total - swap_free) * 100).tdiv swap_total) 100 ∈ out) ∧
       (¬0 < swap_total →
          ∀ s ∈ out, Sample.sname s ≠ "Platform.MeminfoSwapUsed" ∧
            Sample.sname s ≠ "Platform.MeminfoSwapUsed.Percent")) ∧
    (∃ exOut, processMeminfo exampleDump = some exOut ∧
       Sample.uma "Platform.MeminfoSwapUsed" 60000 1 8000000 100 ∈ exOut ∧
       Sample.enum "Platform.MeminfoSwapUsed.Percent" 60 100 ∈ exOut) := by
  rcases hfill : fillVals (linesOf raw) meminfoFields with _ | vals
  · rw [processMeminfo, hfill] at h
    exact absurd h (by simp)
  · have hlen := fillVals_length _ _ _ hfill
    rw [show meminfoFields.length = 17 from rfl] at hlen
    obtain ⟨a0, a1, a2, a3, a4, a5, a6, a7, a8, a9, a10, a11, a12, a13, a14, a15, a16, rfl⟩ :=
      exists_of_length_seventeen vals hlen
    by_cases h0 : a0 = 0
    · rw [processMeminfo, hfill] at h
      simp [h0] at h
    · rw [processMeminfo_explicit raw a0 a1 a2 a3 a4 a5 a6 a7 a8 a9 a10 a11 a12 a13 a14 a15 a16
        hfill h0, Option.some_inj] at h
      subst h
      refine ⟨?_, ⟨a11, a12, by simp [hfill], by simp [hfill], ?_, ?_⟩,
        ⟨_, rfl, by decide, by decide⟩⟩
      · intro s hs
        rcases List.mem_append.mp hs with hs | hs
        · fin_cases hs <;> simp [Sample.sname]
        · split at hs <;> fin_cases hs <;> simp [Sample.sname]
      · intro hpos
        constructor <;> (apply List.mem_append_right; simp [hpos])
      · intro hpos s hs
        rcases List.mem_append.mp hs with hs | hs
        · fin_cases hs <;> simp [Sample.sname]
        · simp [hpos] at hs

/-- C6 witness: the swap-sample theorem applied to the worked-example
dump. -/
theorem c6_swap_derived_samples_witness :
    ∃ out, processMeminfo exampleDump = some out ∧
      ∀ s ∈ out, Sample.sname s ≠ "Platform.MeminfoSwapTotal" ∧
        Sample.sname s ≠ "Platform.MeminfoSwapFree" :=
  ⟨_, rfl, (c6_swap_derived_samples exampleDump _ rfl).1⟩

/-- The meminfo reporting loop never emits the fatal marker: its only
linear-sample call passes `(max, nbuckets) = (100, 101)`. -/
theorem foldl_meminfoStep_no_fatal (total : Int) :
    ∀ (ps : List (MeminfoField × Int)) (acc : List Sample × Int × Int),
      Sample.fatal ∉ acc.1 → Sample.fatal ∉ (ps.foldl (meminfoStep total) acc).1 := by
  intro ps
  induction ps with
  | nil => exact fun acc h => h
  | cons p ps ih =>
    intro acc h
    apply ih
    rcases p with ⟨f, v⟩
    cases hop : f.op <;> simp [meminfoStep, hop, sendSample, sendLinearSample, h]

/-- C9: no reachable `SendLinearSample` call aborts — every linear sample
the daemon emits was requested with `nbuckets = max + 1`.  Meminfo
reporting (both the percent-of-total fields and the swap-used percent),
memory-use-at-age reporting and CPU-throttle reporting never produce the
fatal marker, and a linear-sample request with `nbuckets = max + 1`
always degrades to a plain enumerated sample. -/
theorem c9_linear_sample_bucket_counts :
    (∀ (raw : String) (out : List Sample), processMeminfo raw = some out →
       Sample.fatal ∉ out) ∧
    (∀ (idx : Nat) (raw : String) (out : List Sample), processMemuse idx raw = some out →
       Sample.fatal ∉ out) ∧
    (∀ max_freq scaled_freq : Int, Sample.fatal ∉ sendCpuThrottleMetrics max_freq scaled_freq) ∧
    (∀ (name : String) (sample mx : Int),
       sendLinearSample name sample mx (mx + 1) = Sample.enum name sample mx) := by
  refine ⟨?_, ?_, ?_, ?_⟩
  · intro raw out h
    rcases hfill : fillVals (linesOf raw) meminfoFields with _ | vals
    · rw [processMeminfo, hfill] at h
      exact absurd h (by simp)
    · rw [processMeminfo, hfill] at h
      dsimp only at h
      by_cases h0 : vals.headD 0 = 0
      · rw [if_pos h0] at h
        exact absurd h (by simp)
      · rw [if_neg h0, Option.some_inj] at h
        subst h
        intro hmem
        rcases List.mem_append.mp hmem with hm | hm
        · exact foldl_meminfoStep_no_fatal _ _ _ (by simp) hm
        · split at hm
          · simp [sendSample, sendLinearSample] at hm
          · simp at hm
  · intro idx raw out h
    rcases hfill : fillVals (linesOf raw) memuseFields with _ | vals
    · rw [processMemuse, hfill] at h
      exact absurd h (by simp)
    · rw [processMemuse, hfill] at h
      dsimp only at h
      by_cases h0 : vals.getD 0 0 = 0
      · rw [if_pos (by simpa using h0)] at h
        exact absurd h (by simp)
      · rw [if_neg (by simpa using h0), Option.some_inj] at h
        subst h
        simp [sendLinearSample]
  · intro max_freq scaled_freq
    simp [sendCpuThrottleMetrics, sendLinearSample]
  · intro name sample mx
    simp [sendLinearSample]

/-- C9 witness: the meminfo clause applied to the worked-example dump. -/
theorem c9_linear_sample_bucket_counts_witness :
    ∃ out, processMeminfo exampleDump = some out ∧ Sample.fatal ∉ out :=
  ⟨_, rfl, c9_linear_sample_bucket_counts.1 exampleDump _ rfl⟩

/-- Narrowing a value below `2^31` to a C++ `int` is the identity. -/
theorem toInt32_of_lt {x : Nat} (h : x < 2 ^ 31) : toInt32 x = (x : Int) := by
  unfold toInt32
  rw [Nat.mod_eq_of_lt (by omega)]
  rw [if_pos h]

/-- C10: for every zram reading, the reporter performs no division by
zero exactly when the corrected original size (original + zero-page
bytes) is positive: the compression-ratio division is protected by the
`compressed MiB ≥ 1` guard (which forces a non-zero compressed size),
while the unguarded zero-page-ratio division by the corrected original
size makes the whole report undefined when that size is zero. -/
theorem c10_zram_division_well_defined (c o z : Nat) :
    (0 < (o + z * 4096) % 2 ^ 64 → (reportZram c o z).isSome) ∧
    ((o + z * 4096) % 2 ^ 64 = 0 → reportZram c o z = none) := by
  constructor
  · intro hpos
    simp only [reportZram, div64]
    rw [if_neg (by omega)]
    split
    · rename_i heq
      simp at heq
    · split
      · rename_i heq
        split at heq
        · rename_i hg
          simp only [Option.map_eq_none'] at heq
          split at heq
          · rename_i hc
            subst hc
            simp [toInt32] at hg
          · simp at heq
        · simp at heq
      · simp
  · intro h0
    simp only [reportZram, div64]
    rw [if_pos h0]

/-- C10 witness: the safety theorem applied at the worked zram example
(corrected original 5,242,880 is positive, so the report is defined) and
at the all-zero reading (corrected original 0, report undefined). -/
theorem c10_zram_division_well_defined_witness :
    (reportZram 1048576 4194304 256).isSome ∧ reportZram 0 0 0 = none :=
  ⟨(c10_zram_division_well_defined 1048576 4194304 256).1 (by decide),
   (c10_zram_division_well_defined 0 0 0).2 (by decide)⟩

/-- C8: for any successfully read zram values in a realistic range
(compressed at most the corrected original, corrected original at most
2 TiB and positive), the report is exactly: compressed MiB
(`compressed >> 20`, range 100–4000, 50 buckets), savings MiB
(`(original + zero_pages×4096 − compressed) >> 20`, same range), the
compression ratio ×100 (`corrected-original×100 / compressed`, range
100–600, 50 buckets) present exactly when the compressed size is at
least 1 MiB, the zero-page count (range 256–262144) and the zero-page
ratio percent (range 1–50); and on the spec's worked inputs
(compressed 1,048,576, original 4,194,304, zero pages 256) the corrected
original is 5,242,880, the savings sample is 4, and the ratio sample is
500. -/
theorem c8_zram_derived_metrics (c o z : Nat)
    (h1 : c ≤ o + z * 4096) (h2 : o + z * 4096 ≤ 2 ^ 41) (h3 : 0 < o + z * 4096) :
    (reportZram c o z = some
      ([sendSample "Platform.ZramCompressedSize" (c >>> 20 : Nat) 100 4000 50,
        sendSample "Platform.ZramSavings" ((o + z * 4096 - c) >>> 20 : Nat) 100 4000 50] ++
       (if 1 ≤ c >>> 20 then
         [sendSample "Platform.ZramCompressionRatioPercent"
            ((o + z * 4096) * 100 / c : Nat) 100 600 50]
        else []) ++
       [sendSample "Platform.ZramZeroPages" (z : Nat) 256 (256 * 1024) 50,
        sendSample "Platform.ZramZeroRatioPercent"
          (z * 4096 * 100 / (o + z * 4096) : Nat) 1 50 50])) ∧
    reportZram 1048576 4194304 256 = some
      [sendSample "Platform.ZramCompressedSize" 1 100 4000 50,
       sendSample "Platform.ZramSavings" 4 100 4000 50,
       sendSample "Platform.ZramCompressionRatioPercent" 500 100 600 50,
       sendSample "Platform.ZramZeroPages" 256 256 (256 * 1024) 50,
       sendSample "Platform.ZramZeroRatioPercent" 20 1 50 50] := by
  refine ⟨?_, by decide⟩
  have horig : (o + z * 4096) % 18446744073709551616 = o + z * 4096 :=
    Nat.mod_eq_of_lt (by omega)
  have hsav : (o + z * 4096 + 18446744073709551616 - c) % 18446744073709551616 =
      o + z * 4096 - c := by omega
  have hzr : z * 4096 * 100 % 18446744073709551616 = z * 4096 * 100 :=
    Nat.mod_eq_of_lt (by omega)
  have hrat : (o + z * 4096) * 100 % 18446744073709551616 = (o + z * 4096) * 100 :=
    Nat.mod_eq_of_lt (by omega)
  have hc20 : c >>> 20 = c / 2 ^ 20 := Nat.shiftRight_eq_div_pow c 20
  have hs20 : (o + z * 4096 - c) >>> 20 = (o + z * 4096 - c) / 2 ^ 20 :=
    Nat.shiftRight_eq_div_pow _ 20
  have t1 : toInt32 (c >>> 20) = ((c >>> 20 : Nat) : Int) :=
    toInt32_of_lt (by rw [hc20]; omega)
  have t2 : toInt32 ((o + z * 4096 - c) >>> 20) = (((o + z * 4096 - c) >>> 20 : Nat) : Int) :=
    toInt32_of_lt (by rw [hs20]; omega)
  have t3 : toInt32 z = (z : Int) := toInt32_of_lt (by omega)
  have hzr_le : z * 4096 * 100 / (o + z * 4096) ≤ 100 := by
    calc z * 4096 * 100 / (o + z * 4096) ≤ (o + z * 4096) * 100 / (o + z * 4096) :=
          Nat.div_le_div_right (by omega)
      _ = 100 := Nat.mul_div_cancel_left 100 h3
  have t4 : toInt32 (z * 4096 * 100 / (o + z * 4096)) =
      ((z * 4096 * 100 / (o + z * 4096) : Nat) : Int) := toInt32_of_lt (by omega)
  simp only [reportZram, div64, horig, hsav, hzr, hrat, t1, t2, t3, t4]
  rw [if_neg (by omega)]
  by_cases hg : 1 ≤ c >>> 20
  · have hc0 : ¬c = 0 := by
      rw [hc20] at hg
      omega
    have hcpow : 2 ^ 20 ≤ c := by
      rw [hc20] at hg
      omega
    have t5 : toInt32 ((o + z * 4096) * 100 / c) = (((o + z * 4096) * 100 / c : Nat) : Int) := by
      refine toInt32_of_lt ?_
      calc (o + z * 4096) * 100 / c ≤ 2 ^ 41 * 100 / 2 ^ 20 :=
            Nat.div_le_div (by omega) hcpow (by omega)
        _ < 2 ^ 31 := by norm_num
    rw [if_pos (by exact_mod_cast hg), if_pos hg, if_neg hc0]
    simp [horig, hsav, hzr, hrat, t1, t2, t3, t4, t5]
  · rw [if_neg (by exact_mod_cast hg), if_neg hg]
    simp [horig, hsav, hzr, hrat, t1, t2, t3, t4]

/-- C8 witness: the zram theorem applied at the spec's worked inputs. -/
theorem c8_zram_derived_metrics_witness :
    reportZram 1048576 4194304 256 = some
      [sendSample "Platform.ZramCompressedSize" 1 100 4000 50,
       sendSample "Platform.ZramSavings" 4 100 4000 50,
       sendSample "Platform.ZramCompressionRatioPercent" 500 100 600 50,
       sendSample "Platform.ZramZeroPages" 256 256 (256 * 1024) 50,
       sendSample "Platform.ZramZeroRatioPercent" 20 1 50 50] :=
  (c8_zram_derived_metrics 1048576 4194304 256 (by decide) (by decide) (by decide)).2

end Metricsd
